import Mathlib

/-!
Shallow embedding of the TrustLines approval program
(src/algorand/contracts/trust_lines.py).

Modelling conventions:
- TEAL uint64 application arguments and stored fields are modelled as `Nat`;
  the trust-line balance, which the program manipulates as a signed quantity
  (direction is `Int(1)` or `Int(-1)`), is modelled as `Int`.
- Algorand local state is modelled as a total map from the low account of the
  canonical pair to a `TrustLine` record; absent keys read as the all-zero
  record, matching `App.localGet` returning 0 for missing keys.
- Each subroutine becomes a function from the application state and the
  transaction inputs to `Option AppState` (or `Option (AppState × Nat)` for
  `send_rippling`, whose scratch variable is the only computed output):
  a failed `Assert` is `none`, and `Return(Int(1))` after the `App.localPut`
  effects is `some` of the updated state.
-/

namespace TrustLines

/-- One trust-line record: the per-account local state fields
`account1, account2, asset_id, limit1, limit2, balance, q_in, q_out, ripple`
of the source program. -/
structure TrustLine where
  account1 : Nat
  account2 : Nat
  asset_id : Nat
  limit1 : Nat
  limit2 : Nat
  balance : Int
  quality_in : Nat
  quality_out : Nat
  allow_rippling : Nat
  deriving DecidableEq

/-- Absent local state reads as zero in Algorand. -/
def zeroLine : TrustLine :=
  { account1 := 0, account2 := 0, asset_id := 0, limit1 := 0, limit2 := 0,
    balance := 0, quality_in := 0, quality_out := 0, allow_rippling := 0 }

/-- Application state: the global keys `admin` and `next_tl_id`, and the local
trust-line records keyed by the low account of each canonical pair. -/
structure AppState where
  admin : Nat
  next_tl_id : Nat
  lines : Nat → TrustLine

/-- Point update of the trust-line map. -/
def setLine (f : Nat → TrustLine) (k : Nat) (v : TrustLine) : Nat → TrustLine :=
  fun a => if a = k then v else f a

/-- `on_creation`: `admin := Txn.sender()`, `next_tl_id := 0`, no lines. -/
def on_creation (sender : Nat) : AppState :=
  { admin := sender, next_tl_id := 0, lines := fun _ => zeroLine }

/-- `account1 = If(Txn.sender() < counterparty, Txn.sender(), counterparty)`:
the low end of the canonical pair, computed identically in every subroutine. -/
def low_account (sender counterparty : Nat) : Nat :=
  if sender < counterparty then sender else counterparty

/-- `account2 = If(Txn.sender() < counterparty, counterparty, Txn.sender())`. -/
def high_account (sender counterparty : Nat) : Nat :=
  if sender < counterparty then counterparty else sender

/-- The canonical (low, high) role assignment, as computed at
trust_lines.py lines 54-55 (and repeated in every other subroutine). -/
def canonicalize (p q : Nat) : Nat × Nat :=
  (low_account p q, high_account p q)

/-- `direction = If(Txn.sender() == account1, Int(1), Int(-1))`. -/
def pay_direction (sender counterparty : Nat) : Int :=
  if sender = low_account sender counterparty then 1 else -1

/-- `new_balance = current_balance + (amount * direction)` of `send_payment`. -/
def pay_new_balance (s : AppState) (sender recipient amount : Nat) : Int :=
  (s.lines (low_account sender recipient)).balance +
    (amount : Int) * pay_direction sender recipient

/-- `create_trust_line` (trust_lines.py lines 46-74): asserts
`limit1 > 0`, `limit2 > 0`, `sender != counterparty`, then writes a fresh
record under `account1` (balance 0, qualities 1000000) and increments the
global `next_tl_id`.  There is no check that a record already exists. -/
def create_trust_line (s : AppState) (sender counterparty asset_id limit1 limit2 allow_ripple : Nat) :
    Option AppState :=
  let account1 := low_account sender counterparty
  let account2 := high_account sender counterparty
  if 0 < limit1 ∧ 0 < limit2 ∧ sender ≠ counterparty then
    some { s with
      next_tl_id := s.next_tl_id + 1,
      lines := setLine s.lines account1
        ({ account1 := account1, account2 := account2, asset_id := asset_id,
           limit1 := limit1, limit2 := limit2, balance := 0,
           quality_in := 1000000, quality_out := 1000000,
           allow_rippling := allow_ripple }) }
  else none

/-- `send_payment` (trust_lines.py lines 76-102): asserts `amount > 0`,
`sender != recipient`, and
`Or(And(nb >= 0, nb <= limit1), And(nb < 0, nb >= 0 - limit2))`,
then stores the new balance. -/
def send_payment (s : AppState) (sender recipient amount : Nat) : Option AppState :=
  let account1 := low_account sender recipient
  let tl := s.lines account1
  let new_balance := pay_new_balance s sender recipient amount
  if 0 < amount ∧ sender ≠ recipient ∧
      ((0 ≤ new_balance ∧ new_balance ≤ (tl.limit1 : Int)) ∨
        (new_balance < 0 ∧ 0 - (tl.limit2 : Int) ≤ new_balance)) then
    some { s with lines := setLine s.lines account1 ({ tl with balance := new_balance }) }
  else none

/-- `send_rippling` (trust_lines.py lines 104-112).  `init` asserts
`0 < num_hops <= 6` and `amount > 0`; `validate` asserts, for each `k` with
`num_hops >= k`, that the k-th hop argument is 32 bytes long; `execute`
stores `current_amount * 999000 / 1000000` into the scratch variable when
`num_hops >= 1`.  No trust-line state is read or written; the returned pair
is the unchanged state together with the final scratch value. -/
def send_rippling (s : AppState) (num_hops amount : Nat)
    (hop1 hop2 hop3 hop4 hop5 hop6 : List Nat) : Option (AppState × Nat) :=
  if 0 < num_hops ∧ num_hops ≤ 6 ∧ 0 < amount ∧
      (1 ≤ num_hops → hop1.length = 32) ∧ (2 ≤ num_hops → hop2.length = 32) ∧
      (3 ≤ num_hops → hop3.length = 32) ∧ (4 ≤ num_hops → hop4.length = 32) ∧
      (5 ≤ num_hops → hop5.length = 32) ∧ (6 ≤ num_hops → hop6.length = 32) then
    let current_amount := amount
    let current_amount := if 1 ≤ num_hops then current_amount * 999000 / 1000000 else current_amount
    some (s, current_amount)
  else none

/-- `update_quality` (trust_lines.py lines 114-120): both qualities must be
in (0, 1000000]; overwrites `q_in` and `q_out` of the record at `account1`. -/
def update_quality (s : AppState) (sender counterparty new_quality_in new_quality_out : Nat) :
    Option AppState :=
  let account1 := low_account sender counterparty
  let tl := s.lines account1
  if 0 < new_quality_in ∧ new_quality_in ≤ 1000000 ∧
      0 < new_quality_out ∧ new_quality_out ≤ 1000000 then
    some { s with
      lines := setLine s.lines account1
        ({ tl with quality_in := new_quality_in, quality_out := new_quality_out }) }
  else none

/-- `update_rippling` (trust_lines.py lines 122-127): the flag must be 0 or 1;
overwrites `ripple` of the record at `account1`. -/
def update_rippling (s : AppState) (sender counterparty allow_ripple : Nat) :
    Option AppState :=
  let account1 := low_account sender counterparty
  let tl := s.lines account1
  if allow_ripple = 0 ∨ allow_ripple = 1 then
    some { s with lines := setLine s.lines account1 ({ tl with allow_rippling := allow_ripple }) }
  else none

/-- `update_limits` (trust_lines.py lines 129-136): asserts both new limits
positive, `Or(And(bal >= 0, new_limit1 >= bal), And(bal < 0, new_limit2 >= 0 - bal))`,
and a transaction-group size of at least 2; overwrites both limit fields. -/
def update_limits (s : AppState) (sender counterparty new_limit1 new_limit2 group_size : Nat) :
    Option AppState :=
  let account1 := low_account sender counterparty
  let tl := s.lines account1
  if 0 < new_limit1 ∧ 0 < new_limit2 ∧
      ((0 ≤ tl.balance ∧ tl.balance ≤ (new_limit1 : Int)) ∨
        (tl.balance < 0 ∧ 0 - tl.balance ≤ (new_limit2 : Int))) ∧
      2 ≤ group_size then
    some { s with
      lines := setLine s.lines account1
        ({ tl with limit1 := new_limit1, limit2 := new_limit2 }) }
  else none

/-- `freeze_trust_line` (trust_lines.py lines 138-142): sender must be the
stored admin; zeroes `ripple`, `limit1`, `limit2` of the record at `account1`.
The balance is not touched. -/
def freeze_trust_line (s : AppState) (sender counterparty : Nat) : Option AppState :=
  let account1 := low_account sender counterparty
  let tl := s.lines account1
  if sender = s.admin then
    some { s with
      lines := setLine s.lines account1
        ({ tl with allow_rippling := 0, limit1 := 0, limit2 := 0 }) }
  else none

/-- `settle_with_asa` (trust_lines.py lines 166-174): asserts
`settle_amount > 0` and group size at least 2, then unconditionally stores
`current_balance - settle_amount * direction`.  No credit-limit check. -/
def settle_with_asa (s : AppState) (sender counterparty settle_amount group_size : Nat) :
    Option AppState :=
  let account1 := low_account sender counterparty
  let tl := s.lines account1
  let new_balance := tl.balance - (settle_amount : Int) * pay_direction sender counterparty
  if 0 < settle_amount ∧ 2 ≤ group_size then
    some { s with lines := setLine s.lines account1 ({ tl with balance := new_balance }) }
  else none

/-- The per-line credit bound of the specification:
`-limit2 <= balance <= limit1` (spec names: `-limit_hi <= balance <= limit_lo`). -/
def lineInv (tl : TrustLine) : Prop :=
  0 - (tl.limit2 : Int) ≤ tl.balance ∧ tl.balance ≤ (tl.limit1 : Int)

instance (tl : TrustLine) : Decidable (lineInv tl) := by
  unfold lineInv
  infer_instance

/-- The credit bound holds at every stored line. -/
def stateInv (s : AppState) : Prop :=
  ∀ a : Nat, lineInv (s.lines a)

theorem setLine_same (f : Nat → TrustLine) (k : Nat) (v : TrustLine) :
    setLine f k v k = v := by
  simp [setLine]

theorem setLine_other (f : Nat → TrustLine) (k : Nat) (v : TrustLine) (a : Nat)
    (h : a ≠ k) : setLine f k v a = f a := by
  simp [setLine, h]

/-- The admissibility disjunction of `send_payment` is exactly the two-sided
credit bound, because the stored limits are unsigned. -/
theorem or_bounds_iff (l1 l2 : Nat) (nb : Int) :
    ((0 ≤ nb ∧ nb ≤ (l1 : Int)) ∨ (nb < 0 ∧ 0 - (l2 : Int) ≤ nb)) ↔
      (0 - (l2 : Int) ≤ nb ∧ nb ≤ (l1 : Int)) := by
  omega

/-- Claim C8: for all identities p ≠ q the canonical pair assignment is
commutative and its components are strictly ordered: `canonicalize p q =
canonicalize q p` and the low component is below the high component. -/
theorem C8_canonicalize_comm (p q : Nat) (h : p ≠ q) :
    canonicalize p q = canonicalize q p ∧
      (canonicalize p q).1 < (canonicalize p q).2 := by
  rcases Nat.lt_or_ge p q with hlt | hge
  · have hnot : ¬ q < p := Nat.not_lt.mpr (Nat.le_of_lt hlt)
    constructor
    · simp [canonicalize, low_account, high_account, hlt, hnot]
    · simp [canonicalize, low_account, high_account, hlt, hnot]
  · have hlt : q < p := Nat.lt_of_le_of_ne hge (fun hq => h hq.symm)
    have hnot : ¬ p < q := Nat.not_lt.mpr (Nat.le_of_lt hlt)
    constructor
    · simp [canonicalize, low_account, high_account, hlt, hnot]
    · simp [canonicalize, low_account, high_account, hlt, hnot]

theorem C8_canonicalize_comm_witness :
    canonicalize 3 5 = canonicalize 5 3 ∧
      (canonicalize 3 5).1 < (canonicalize 3 5).2 :=
  C8_canonicalize_comm 3 5 (by decide)

/-- Claim C4: for `send` with positive amount and distinct parties, the call
succeeds — and its sole effect is storing the new balance
`balance + amount * direction` at the canonical low account — exactly when
`-limit2 <= new_balance <= limit1`; otherwise it returns failure and the
state is untouched. -/
theorem C4_send_payment (s : AppState) (sender recipient amount : Nat)
    (hamt : 0 < amount) (hne : sender ≠ recipient) :
    (send_payment s sender recipient amount =
        some { s with
          lines := setLine s.lines (low_account sender recipient)
            ({ s.lines (low_account sender recipient) with
               balance := pay_new_balance s sender recipient amount }) } ↔
      (0 - ((s.lines (low_account sender recipient)).limit2 : Int) ≤
          pay_new_balance s sender recipient amount ∧
        pay_new_balance s sender recipient amount ≤
          ((s.lines (low_account sender recipient)).limit1 : Int))) ∧
    (¬ (0 - ((s.lines (low_account sender recipient)).limit2 : Int) ≤
          pay_new_balance s sender recipient amount ∧
        pay_new_balance s sender recipient amount ≤
          ((s.lines (low_account sender recipient)).limit1 : Int)) →
      send_payment s sender recipient amount = none) := by
  have hcond : (0 < amount ∧ sender ≠ recipient ∧
      ((0 ≤ pay_new_balance s sender recipient amount ∧
          pay_new_balance s sender recipient amount ≤
            ((s.lines (low_account sender recipient)).limit1 : Int)) ∨
        (pay_new_balance s sender recipient amount < 0 ∧
          0 - ((s.lines (low_account sender recipient)).limit2 : Int) ≤
            pay_new_balance s sender recipient amount))) ↔
      (0 - ((s.lines (low_account sender recipient)).limit2 : Int) ≤
          pay_new_balance s sender recipient amount ∧
        pay_new_balance s sender recipient amount ≤
          ((s.lines (low_account sender recipient)).limit1 : Int)) := by
    constructor
    · rintro ⟨-, -, hor⟩
      exact (or_bounds_iff _ _ _).mp hor
    · intro hb
      exact ⟨hamt, hne, (or_bounds_iff _ _ _).mpr hb⟩
  constructor
  · constructor
    · intro heq
      by_contra hnb
      simp only [send_payment] at heq
      rw [if_neg (fun hc => hnb (hcond.mp hc))] at heq
      exact Option.noConfusion heq
    · intro hb
      simp only [send_payment]
      rw [if_pos (hcond.mpr hb)]
  · intro hnb
    simp only [send_payment]
    rw [if_neg (fun hc => hnb (hcond.mp hc))]

/-- Concrete state used by the C4 witness: admin 9, line (5, 9) with limits
100/100, balance 0, rippling allowed. -/
def c4s : AppState :=
  (create_trust_line (on_creation 9) 5 9 1 100 100 1).getD (on_creation 9)

theorem C4_send_payment_witness :
    send_payment c4s 5 9 40 =
      some { c4s with
        lines := setLine c4s.lines (low_account 5 9)
          ({ c4s.lines (low_account 5 9) with balance := pay_new_balance c4s 5 9 40 }) } :=
  (C4_send_payment c4s 5 9 40 (by decide) (by decide)).1.mpr (by decide)

/-- One external request to the approval program, with its transaction inputs.
The constructors mirror the dispatch table at trust_lines.py lines 176-191. -/
inductive Op where
  | create (sender counterparty asset_id limit1 limit2 allow_ripple : Nat)
  | send (sender recipient amount : Nat)
  | ripple (num_hops amount : Nat) (hop1 hop2 hop3 hop4 hop5 hop6 : List Nat)
  | quality (sender counterparty new_quality_in new_quality_out : Nat)
  | ripple_set (sender counterparty allow_ripple : Nat)
  | limits (sender counterparty new_limit1 new_limit2 group_size : Nat)
  | freeze (sender counterparty : Nat)
  | settle (sender counterparty settle_amount group_size : Nat)

/-- Dispatch one request to the matching subroutine. -/
def applyOp (s : AppState) : Op → Option AppState
  | Op.create sender counterparty asset_id limit1 limit2 allow_ripple =>
      create_trust_line s sender counterparty asset_id limit1 limit2 allow_ripple
  | Op.send sender recipient amount => send_payment s sender recipient amount
  | Op.ripple num_hops amount hop1 hop2 hop3 hop4 hop5 hop6 =>
      (send_rippling s num_hops amount hop1 hop2 hop3 hop4 hop5 hop6).map Prod.fst
  | Op.quality sender counterparty qin qout => update_quality s sender counterparty qin qout
  | Op.ripple_set sender counterparty ar => update_rippling s sender counterparty ar
  | Op.limits sender counterparty n1 n2 g => update_limits s sender counterparty n1 n2 g
  | Op.freeze sender counterparty => freeze_trust_line s sender counterparty
  | Op.settle sender counterparty amt g => settle_with_asa s sender counterparty amt g

/-- A rejected transaction leaves the ledger state unchanged. -/
def step (s : AppState) (op : Op) : AppState :=
  (applyOp s op).getD s

/-- Apply a sequence of requests in order. -/
def run (s : AppState) : List Op → AppState
  | [] => s
  | op :: ops => run (step s op) ops

def Op.isFreeze : Op → Bool
  | Op.freeze _ _ => true
  | _ => false

def Op.isSettle : Op → Bool
  | Op.settle _ _ _ _ => true
  | _ => false

/-- Every request other than `freeze` and `settle` preserves the per-line
credit bound. -/
theorem stateInv_preserved (s : AppState) (op : Op)
    (hf : Op.isFreeze op = false) (hst : Op.isSettle op = false)
    (hinv : stateInv s) : stateInv (step s op) := by
  cases op with
  | create sender counterparty asset_id limit1 limit2 allow_ripple =>
      simp only [step, applyOp, create_trust_line]
      split
      · intro a
        simp only [Option.getD_some]
        by_cases ha : a = low_account sender counterparty
        · subst ha
          show lineInv (setLine s.lines (low_account sender counterparty) _
            (low_account sender counterparty))
          rw [setLine_same]
          simp only [lineInv]
          constructor
          · have : (0 : Int) ≤ (limit2 : Int) := Int.ofNat_nonneg limit2
            omega
          · exact Int.ofNat_nonneg limit1
        · show lineInv (setLine s.lines (low_account sender counterparty) _ a)
          rw [setLine_other _ _ _ _ ha]
          exact hinv a
      · intro a
        simp only [Option.getD_none]
        exact hinv a
  | send sender recipient amount =>
      simp only [step, applyOp, send_payment]
      split
      case isTrue hc =>
        intro a
        simp only [Option.getD_some]
        by_cases ha : a = low_account sender recipient
        · subst ha
          show lineInv (setLine s.lines (low_account sender recipient) _
            (low_account sender recipient))
          rw [setLine_same]
          simp only [lineInv]
          rcases hc with ⟨-, -, hor⟩
          exact (or_bounds_iff _ _ _).mp hor
        · show lineInv (setLine s.lines (low_account sender recipient) _ a)
          rw [setLine_other _ _ _ _ ha]
          exact hinv a
      case isFalse =>
        intro a
        simp only [Option.getD_none]
        exact hinv a
  | ripple num_hops amount hop1 hop2 hop3 hop4 hop5 hop6 =>
      simp only [step, applyOp, send_rippling]
      split
      · intro a
        simp only [Option.map_some', Option.getD_some]
        exact hinv a
      · intro a
        simp only [Option.map_none', Option.getD_none]
        exact hinv a
  | quality sender counterparty qin qout =>
      simp only [step, applyOp, update_quality]
      split
      · intro a
        simp only [Option.getD_some]
        by_cases ha : a = low_account sender counterparty
        · subst ha
          show lineInv (setLine s.lines (low_account sender counterparty) _
            (low_account sender counterparty))
          rw [setLine_same]
          simp only [lineInv]
          exact hinv (low_account sender counterparty)
        · show lineInv (setLine s.lines (low_account sender counterparty) _ a)
          rw [setLine_other _ _ _ _ ha]
          exact hinv a
      · intro a
        simp only [Option.getD_none]
        exact hinv a
  | ripple_set sender counterparty ar =>
      simp only [step, applyOp, update_rippling]
      split
      · intro a
        simp only [Option.getD_some]
        by_cases ha : a = low_account sender counterparty
        · subst ha
          show lineInv (setLine s.lines (low_account sender counterparty) _
            (low_account sender counterparty))
          rw [setLine_same]
          simp only [lineInv]
          exact hinv (low_account sender counterparty)
        · show lineInv (setLine s.lines (low_account sender counterparty) _ a)
          rw [setLine_other _ _ _ _ ha]
          exact hinv a
      · intro a
        simp only [Option.getD_none]
        exact hinv a
  | limits sender counterparty n1 n2 g =>
      simp only [step, applyOp, update_limits]
      split
      case isTrue hc =>
        intro a
        simp only [Option.getD_some]
        by_cases ha : a = low_account sender counterparty
        · subst ha
          show lineInv (setLine s.lines (low_account sender counterparty) _
            (low_account sender counterparty))
          rw [setLine_same]
          simp only [lineInv]
          rcases hc with ⟨-, -, hor, -⟩
          have h1 : (0 : Int) ≤ (n1 : Int) := Int.ofNat_nonneg n1
          have h2 : (0 : Int) ≤ (n2 : Int) := Int.ofNat_nonneg n2
          omega
        · show lineInv (setLine s.lines (low_account sender counterparty) _ a)
          rw [setLine_other _ _ _ _ ha]
          exact hinv a
      case isFalse =>
        intro a
        simp only [Option.getD_none]
        exact hinv a
  | freeze sender counterparty =>
      simp only [Op.isFreeze] at hf
      exact Bool.noConfusion hf
  | settle sender counterparty amt g =>
      simp only [Op.isSettle] at hst
      exact Bool.noConfusion hst

/-- Freeze-free, settle-free request sequences keep every line inside its
credit bound. -/
theorem stateInv_run (ops : List Op) :
    ∀ s : AppState, stateInv s →
      (∀ op ∈ ops, Op.isFreeze op = false ∧ Op.isSettle op = false) →
      stateInv (run s ops) := by
  induction ops with
  | nil =>
      intro s h _
      exact h
  | cons op ops ih =>
      intro s h hall
      show stateInv (run (step s op) ops)
      have hop := hall op (List.mem_cons_self op ops)
      exact ih (step s op) (stateInv_preserved s op hop.1 hop.2 h)
        (fun o ho => hall o (List.mem_cons_of_mem op ho))

/-- The freshly initialized application satisfies the bound everywhere. -/
theorem stateInv_on_creation (creator : Nat) : stateInv (on_creation creator) := by
  intro a
  simp [on_creation, zeroLine, lineInv]

/-- Claim C2 (amended): after any sequence of requests drawn from
create/send/ripple/quality/ripple_set/limits — that is, the claimed set
without `freeze` — every stored line satisfies
`-limit2 <= balance <= limit1`.  (`freeze` itself breaks the bound, see the
counterexample.) -/
theorem C2_invariant_no_freeze (creator : Nat) (ops : List Op)
    (hops : ∀ op ∈ ops, Op.isFreeze op = false ∧ Op.isSettle op = false) :
    stateInv (run (on_creation creator) ops) :=
  stateInv_run ops (on_creation creator) (stateInv_on_creation creator) hops

theorem C2_invariant_no_freeze_witness :
    stateInv (run (on_creation 9) [Op.create 5 9 1 100 100 1, Op.send 5 9 40]) := by
  refine C2_invariant_no_freeze 9 [Op.create 5 9 1 100 100 1, Op.send 5 9 40] ?_
  intro op hop
  simp only [List.mem_cons, List.not_mem_nil, or_false] at hop
  rcases hop with rfl | rfl
  · exact ⟨rfl, rfl⟩
  · exact ⟨rfl, rfl⟩

/-- States of the C2 counterexample: admin is account 9; the pair (5, 9) is
created with limits 100/100, account 5 sends 40, then the admin freezes. -/
def c2_s0 : AppState := on_creation 9

def c2_s1 : AppState := step c2_s0 (Op.create 5 9 1 100 100 1)

def c2_s2 : AppState := step c2_s1 (Op.send 5 9 40)

def c2_s3 : AppState := step c2_s2 (Op.freeze 9 5)

/-- Claim C2 is false as stated: the listed operation set includes `freeze`,
and after the successful sequence create, send, freeze on the pair (5, 9)
the stored line has balance 40 with both limits 0, so
`-limit2 <= balance <= limit1` fails. -/
theorem C2_counterexample :
    (applyOp c2_s0 (Op.create 5 9 1 100 100 1)).isSome = true ∧
    (applyOp c2_s1 (Op.send 5 9 40)).isSome = true ∧
    (applyOp c2_s2 (Op.freeze 9 5)).isSome = true ∧
    c2_s3 = run c2_s0 [Op.create 5 9 1 100 100 1, Op.send 5 9 40, Op.freeze 9 5] ∧
    (c2_s3.lines 5).balance = 40 ∧ (c2_s3.lines 5).limit1 = 0 ∧
    (c2_s3.lines 5).limit2 = 0 ∧ ¬ lineInv (c2_s3.lines 5) := by
  refine ⟨rfl, rfl, rfl, rfl, rfl, rfl, rfl, ?_⟩
  decide

/-- States of the C5 counterexample: the pair (5, 9) already has a record
with balance 40 when `create` is called again. -/
def c5_s0 : AppState := on_creation 9

def c5_s1 : AppState := (create_trust_line c5_s0 5 9 1 100 100 1).getD c5_s0

def c5_s2 : AppState := (send_payment c5_s1 5 9 40).getD c5_s1

/-- Claim C5 is false as stated: calling `create` on the pair (5, 9), whose
canonical record already exists (balance 40), succeeds, resets the stored
balance to 0 and increments the creation counter — it does not fail and it
does change stored state. -/
theorem C5_counterexample :
    (c5_s2.lines 5).balance = 40 ∧
    (create_trust_line c5_s2 5 9 1 100 100 1).isSome = true ∧
    (((create_trust_line c5_s2 5 9 1 100 100 1).getD c5_s2).lines 5).balance = 0 ∧
    ((create_trust_line c5_s2 5 9 1 100 100 1).getD c5_s2).next_tl_id =
      c5_s2.next_tl_id + 1 :=
  ⟨rfl, rfl, rfl, rfl⟩

/-- Claim C5 (amended): `create` performs no duplicate check.  Whenever its
asserted preconditions hold (both limits positive, distinct parties) the call
succeeds — even when the canonical pair already has a record — and overwrites
the record with a fresh line (balance 0, qualities 1000000, the given limits
and flag), incrementing the creation counter. -/
theorem C5_create_overwrites (s : AppState) (sender counterparty asset_id l1 l2 ar : Nat)
    (h1 : 0 < l1) (h2 : 0 < l2) (h3 : sender ≠ counterparty) :
    create_trust_line s sender counterparty asset_id l1 l2 ar =
      some { s with
        next_tl_id := s.next_tl_id + 1,
        lines := setLine s.lines (low_account sender counterparty)
          ({ account1 := low_account sender counterparty,
             account2 := high_account sender counterparty, asset_id := asset_id,
             limit1 := l1, limit2 := l2, balance := 0,
             quality_in := 1000000, quality_out := 1000000,
             allow_rippling := ar }) } := by
  simp only [create_trust_line]
  rw [if_pos ⟨h1, h2, h3⟩]

theorem C5_create_overwrites_witness :
    create_trust_line c5_s2 5 9 1 100 100 1 =
      some { c5_s2 with
        next_tl_id := c5_s2.next_tl_id + 1,
        lines := setLine c5_s2.lines (low_account 5 9)
          ({ account1 := low_account 5 9, account2 := high_account 5 9, asset_id := 1,
             limit1 := 100, limit2 := 100, balance := 0,
             quality_in := 1000000, quality_out := 1000000,
             allow_rippling := 1 }) } :=
  C5_create_overwrites c5_s2 5 9 1 100 100 1 (by decide) (by decide) (by decide)

/-- States of the C6 counterexample: the pair (5, 9) is created, account 5
sends 40, then the admin (account 9) freezes the line. -/
def c6_s0 : AppState := on_creation 9

def c6_s1 : AppState := (create_trust_line c6_s0 5 9 1 100 100 1).getD c6_s0

def c6_s2 : AppState := (send_payment c6_s1 5 9 40).getD c6_s1

def c6_s3 : AppState := (freeze_trust_line c6_s2 9 5).getD c6_s2

/-- Claim C6 is false as stated: after a successful `freeze` of the pair
(5, 9) (limits forced to 0, balance still 40), a `send` of 40 from account 9
back to account 5 succeeds (the new balance 0 passes the zero-limit check),
and `update_limits` on the pair also succeeds, restoring both limits to 100 —
frozen capacity is re-opened through the normal update path. -/
theorem C6_counterexample :
    (freeze_trust_line c6_s2 9 5).isSome = true ∧
    (c6_s3.lines 5).limit1 = 0 ∧ (c6_s3.lines 5).limit2 = 0 ∧
    (c6_s3.lines 5).balance = 40 ∧
    (send_payment c6_s3 9 5 40).isSome = true ∧
    (update_limits c6_s3 9 5 100 100 2).isSome = true ∧
    (((update_limits c6_s3 9 5 100 100 2).getD c6_s3).lines 5).limit1 = 100 ∧
    (((update_limits c6_s3 9 5 100 100 2).getD c6_s3).lines 5).limit2 = 100 :=
  ⟨rfl, rfl, rfl, rfl, rfl, rfl, rfl, rfl⟩

/-- Claim C6 (amended): on a frozen line (both limits 0), a subsequent `send`
between the two parties succeeds exactly when its new balance is 0 — so with
a zero frozen balance every send fails, but a balance-cancelling send passes —
and `update_limits` is not blocked by the frozen state: under its ordinary
preconditions it succeeds and overwrites both limits with the new positive
values. -/
theorem C6_after_freeze (s : AppState) (p q amount n1 n2 g : Nat)
    (hpq : p ≠ q) (hamt : 0 < amount)
    (hfr1 : (s.lines (low_account p q)).limit1 = 0)
    (hfr2 : (s.lines (low_account p q)).limit2 = 0)
    (hn1 : 0 < n1) (hn2 : 0 < n2) (hg : 2 ≤ g)
    (hexp : (0 ≤ (s.lines (low_account p q)).balance ∧
        (s.lines (low_account p q)).balance ≤ (n1 : Int)) ∨
      ((s.lines (low_account p q)).balance < 0 ∧
        0 - (s.lines (low_account p q)).balance ≤ (n2 : Int))) :
    ((send_payment s p q amount).isSome = true ↔ pay_new_balance s p q amount = 0) ∧
    (update_limits s p q n1 n2 g).isSome = true ∧
    (((update_limits s p q n1 n2 g).getD s).lines (low_account p q)).limit1 = n1 ∧
    (((update_limits s p q n1 n2 g).getD s).lines (low_account p q)).limit2 = n2 := by
  have hcond : (0 < amount ∧ p ≠ q ∧
      ((0 ≤ pay_new_balance s p q amount ∧
          pay_new_balance s p q amount ≤ ((s.lines (low_account p q)).limit1 : Int)) ∨
        (pay_new_balance s p q amount < 0 ∧
          0 - ((s.lines (low_account p q)).limit2 : Int) ≤ pay_new_balance s p q amount))) ↔
      pay_new_balance s p q amount = 0 := by
    rw [hfr1, hfr2]
    simp only [Nat.cast_zero]
    constructor
    · rintro ⟨-, -, hor⟩
      omega
    · intro h0
      exact ⟨hamt, hpq, Or.inl (by omega)⟩
  refine ⟨?_, ?_, ?_, ?_⟩
  · by_cases h0 : pay_new_balance s p q amount = 0
    · simp only [send_payment]
      rw [if_pos (hcond.mpr h0)]
      simp [h0]
    · simp only [send_payment]
      rw [if_neg (fun hc => h0 (hcond.mp hc))]
      simp [h0]
  · simp only [update_limits]
    rw [if_pos ⟨hn1, hn2, hexp, hg⟩]
    rfl
  · simp only [update_limits]
    rw [if_pos ⟨hn1, hn2, hexp, hg⟩]
    show (setLine s.lines (low_account p q) _ (low_account p q)).limit1 = n1
    rw [setLine_same]
  · simp only [update_limits]
    rw [if_pos ⟨hn1, hn2, hexp, hg⟩]
    show (setLine s.lines (low_account p q) _ (low_account p q)).limit2 = n2
    rw [setLine_same]

theorem C6_after_freeze_witness :
    (update_limits c6_s3 9 5 100 100 2).isSome = true :=
  (C6_after_freeze c6_s3 9 5 40 100 100 2 (by decide) (by decide) rfl rfl
    (by decide) (by decide) (by decide) (Or.inl (by decide))).2.1

/-- Claim C7: `update_limits` succeeds only when both new limits are
positive and do not shrink below the current exposure (`new_limit1 >= balance`
when the balance is non-negative, `new_limit2 >= -balance` when it is
negative), and on success its effect is exactly overwriting the two limit
fields of the canonical record. -/
theorem C7_update_limits (s : AppState) (sender counterparty n1 n2 g : Nat) (s2 : AppState)
    (h : update_limits s sender counterparty n1 n2 g = some s2) :
    0 < n1 ∧ 0 < n2 ∧
    (0 ≤ (s.lines (low_account sender counterparty)).balance →
      (s.lines (low_account sender counterparty)).balance ≤ (n1 : Int)) ∧
    ((s.lines (low_account sender counterparty)).balance < 0 →
      0 - (s.lines (low_account sender counterparty)).balance ≤ (n2 : Int)) ∧
    s2 = { s with
      lines := setLine s.lines (low_account sender counterparty)
        ({ s.lines (low_account sender counterparty) with
           limit1 := n1, limit2 := n2 }) } := by
  simp only [update_limits] at h
  split at h
  case isTrue hc =>
    obtain ⟨h1, h2, hor, -⟩ := hc
    refine ⟨h1, h2, ?_, ?_, (Option.some.inj h).symm⟩
    · intro hb
      omega
    · intro hb
      omega
  case isFalse =>
    exact Option.noConfusion h

def c7_s : AppState :=
  (create_trust_line (on_creation 9) 5 9 1 100 100 1).getD (on_creation 9)

def c7_s2 : AppState := (update_limits c7_s 5 9 200 150 2).getD c7_s

theorem C7_update_limits_witness :
    c7_s2 = { c7_s with
      lines := setLine c7_s.lines (low_account 5 9)
        ({ c7_s.lines (low_account 5 9) with limit1 := 200, limit2 := 150 }) } :=
  (C7_update_limits c7_s 5 9 200 150 2 c7_s2 rfl).2.2.2.2

/-- Claim C9: whenever `ripple` succeeds, the returned application state is
the input state — the subroutine performs only input validation and scratch
computation and mutates no stored per-line or global field. -/
theorem C9_ripple_frame (s : AppState) (num_hops amount : Nat)
    (hop1 hop2 hop3 hop4 hop5 hop6 : List Nat) (res : AppState × Nat)
    (h : send_rippling s num_hops amount hop1 hop2 hop3 hop4 hop5 hop6 = some res) :
    res.1 = s := by
  simp only [send_rippling] at h
  split at h
  · rw [← Option.some.inj h]
  · exact Option.noConfusion h

/-- A 32-byte hop identifier. -/
def addr32 : List Nat := List.replicate 32 0

def c9_s : AppState := on_creation 9

theorem C9_ripple_frame_witness :
    ((send_rippling c9_s 1 10 addr32 [] [] [] [] []).getD (c9_s, 0)).1 = c9_s := by
  have h : send_rippling c9_s 1 10 addr32 [] [] [] [] [] = some (c9_s, 9) := rfl
  rw [h]
  exact C9_ripple_frame c9_s 1 10 addr32 [] [] [] [] [] (c9_s, 9) h

/-- State of the C1 evaluation: the pair (5, 9) has a healthy line — positive
limits, zero balance, rippling allowed — so every admissibility check of the
claim passes at the forwarded amount. -/
def c1_s0 : AppState := on_creation 9

def c1_s1 : AppState := (create_trust_line c1_s0 5 9 1 100 100 1).getD c1_s0

/-- Claim C1 evaluated on the code: a one-hop `ripple` of amount 10 over the
healthy line (limits 100/100, balance 0, rippling enabled) succeeds but
returns the input state unchanged — no hop balance delta is applied, because
`send_rippling` never reads or writes any trust line; it only validates the
argument shapes and decays a scratch amount. -/
theorem C1_ripple_no_mutation :
    0 < (c1_s1.lines 5).limit1 ∧ 0 < (c1_s1.lines 5).limit2 ∧
    (c1_s1.lines 5).allow_rippling = 1 ∧ (c1_s1.lines 5).balance = 0 ∧
    send_rippling c1_s1 1 10 addr32 [] [] [] [] [] = some (c1_s1, 9) ∧
    ((send_rippling c1_s1 1 10 addr32 [] [] [] [] []).getD (c1_s1, 0)).1.lines 5 =
      c1_s1.lines 5 :=
  ⟨by decide, by decide, rfl, rfl, rfl, rfl⟩

/-- Specification-side definition, following the spec words (section 4.4):
`forwarded[0] = amount`, `forwarded[k] = floor(forwarded[k-1] * 999000 / 1000000)`.
Stated only to compare the claimed per-hop recurrence with the program, whose
`execute` step applies the decay a single time. -/
def forwardedSpec (amount : Nat) : Nat → Nat
  | 0 => amount
  | k + 1 => forwardedSpec amount k * 999000 / 1000000

/-- Claim C3 evaluated on the code: a three-hop `ripple` of amount 1000 ends
with scratch amount 999 — the decay step is applied once, guarded only by
`num_hops >= 1` — while the claimed recurrence forwards 999, 998 and then 997
across the three hops. -/
theorem C3_single_decay :
    (send_rippling (on_creation 9) 3 1000 addr32 addr32 addr32 [] [] []).map Prod.snd =
      some 999 ∧
    forwardedSpec 1000 1 = 999 ∧ forwardedSpec 1000 2 = 998 ∧
    forwardedSpec 1000 3 = 997 ∧ (999 : Nat) ≠ 997 :=
  ⟨rfl, rfl, rfl, rfl, by decide⟩

def c10_s : AppState :=
  (create_trust_line (on_creation 9) 5 9 1 100 100 1).getD (on_creation 9)

/-- Claim C10: `settle` with a positive amount and group size at least 2
unconditionally stores `balance - settle_amount * direction` — there is no
credit-limit check — and concretely, settling 200 from the in-bounds state
(limits 100/100, balance 0) succeeds and leaves the balance at -200, outside
`[-limit2, limit1]`. -/
theorem C10_settle_unchecked :
    (∀ (s : AppState) (sender counterparty settle_amount group_size : Nat),
      0 < settle_amount → 2 ≤ group_size →
      settle_with_asa s sender counterparty settle_amount group_size =
        some { s with
          lines := setLine s.lines (low_account sender counterparty)
            ({ s.lines (low_account sender counterparty) with
               balance := (s.lines (low_account sender counterparty)).balance -
                 (settle_amount : Int) * pay_direction sender counterparty }) }) ∧
    lineInv (c10_s.lines 5) ∧
    (settle_with_asa c10_s 5 9 200 2).isSome = true ∧
    ¬ lineInv (((settle_with_asa c10_s 5 9 200 2).getD c10_s).lines 5) := by
  refine ⟨?_, by decide, rfl, by decide⟩
  intro s sender counterparty amt g h1 h2
  simp only [settle_with_asa]
  rw [if_pos ⟨h1, h2⟩]

theorem C10_settle_unchecked_witness :
    settle_with_asa c10_s 5 9 200 2 =
      some { c10_s with
        lines := setLine c10_s.lines (low_account 5 9)
          ({ c10_s.lines (low_account 5 9) with
             balance := (c10_s.lines (low_account 5 9)).balance -
               ((200 : Nat) : Int) * pay_direction 5 9 }) } :=
  C10_settle_unchecked.1 c10_s 5 9 200 2 (by decide) (by decide)

end TrustLines
